/-
Verification of the multi-agent refactoring control loop
(CodeRefactorOrchestrator, AuditorAgent, FixerAgent, JudgeAgent).

The definitions below are a shallow embedding of the Python source:
  - `loopFrom` / `refactor` embed `CodeRefactorOrchestrator.refactor`
    (src/agents/orchestrator.py), the `while iteration < max_iterations`
    loop over the three phases AUDIT / FIX / VALIDATE.
  - `run_tests`, `parse_pytest_output`, `extract_json_from_response`
    embed the corresponding `JudgeAgent` methods (src/agents/judge_agent.py).
  - `analyze`, `analyzeFileLoop` embed `AuditorAgent.analyze` and
    `AuditorAgent._analyze_file` (src/agents/auditor_agent.py).
  - `fix_issues`, `has_syntax_error` embed `FixerAgent.fix_issues` and
    `FixerAgent._has_syntax_error` (src/agents/fixer_agent.py).

External effects (LLM calls, subprocess runs, file reads/writes) are
modelled as explicit parameters: a fallible external call becomes an
`Except`/oracle argument, and a file write becomes an entry in a write log.
-/
import Mathlib

namespace RefactorSwarm

/-! ## Orchestrator data model

The orchestrator's `stats` dict (src/agents/orchestrator.py, lines 72-82),
restricted to the fields the loop itself reads or writes.  The three
`*Log` fields are instrumentation recording, per phase, the iteration
numbers at which the corresponding agent was invoked; they let theorems
express "the Judge was not invoked" and do not influence control flow. -/
structure Stats where
  iterations : Nat
  total_issues_found : Int
  total_files_modified : Int
  final_status : String
  final_message : String
  all_issues_detected : List (String × Nat × List String)
  all_fixes_applied : List String
  auditLog : List Nat
  fixLog : List Nat
  judgeLog : List Nat
  deriving Repr, DecidableEq

/-- The dict returned by `FixerAgent.fix_issues`, restricted to the keys
the orchestrator reads (`files_modified`, `fixes_log`).  `files_modified`
is an `Int` because the orchestrator places no constraint on the adapter's
Python integer. -/
structure FixResult where
  files_modified : Int
  fixes_log : List String
  deriving Repr, DecidableEq

/-- The dict returned by `JudgeAgent.run_tests`, restricted to the keys the
orchestrator reads via `.get` (lines 140-143 of orchestrator.py). -/
structure TestResult where
  all_passed : Bool
  judge_status : String
  judge_action : String
  judge_reason : String
  deriving Repr, DecidableEq

/-- The three worker adapters, indexed by the iteration number at which the
orchestrator invokes them (adapters may behave differently per call).
A plan is the dict `{file_path: issues}` the orchestrator consumes:
an association list from file path to the list of issue strings. -/
structure Adapters where
  audit : Nat → List (String × List String)
  fix : Nat → FixResult
  judge : Nat → TestResult

/-- The orchestrator's initial `stats` dict (lines 72-84). -/
def initStats : Stats :=
  { iterations := 0
    total_issues_found := 0
    total_files_modified := 0
    final_status := "UNKNOWN"
    final_message := ""
    all_issues_detected := []
    all_fixes_applied := []
    auditLog := []
    fixLog := []
    judgeLog := [] }

/-- Outcome of one pass of the loop body: `exit` is a `break` out of the
while loop with the final stats, `next` falls through to the next pass. -/
inductive LoopOutcome where
  | exit (s : Stats)
  | next (s : Stats)
  deriving Repr, DecidableEq

/-- The body of the orchestrator's while loop (orchestrator.py lines 87-170)
for the pass whose (already incremented) iteration counter is `iter'`:
AUDIT, the empty-plan break, statistics accumulation, FIX, the stall break,
VALIDATE, and the verdict dispatch. -/
def loopStep (A : Adapters) (maxIter iter' : Nat) (s : Stats) : LoopOutcome :=
  let s1 : Stats := { s with iterations := iter', auditLog := s.auditLog ++ [iter'] }
  let plan := A.audit iter'
  if plan.isEmpty then
    .exit { s1 with final_status := "SUCCESS", final_message := "Code is clean" }
  else
    let total_issues : Int := (plan.map fun p => (p.2.length : Int)).sum
    let s2 : Stats := { s1 with
      total_issues_found := s1.total_issues_found + total_issues,
      all_issues_detected :=
        s1.all_issues_detected ++ plan.map fun p => (p.1, p.2.length, p.2) }
    let fix_result := A.fix iter'
    let files_modified := fix_result.files_modified
    let s3 : Stats := { s2 with
      fixLog := s2.fixLog ++ [iter'],
      total_files_modified := s2.total_files_modified + files_modified,
      all_fixes_applied := s2.all_fixes_applied ++ fix_result.fixes_log }
    if files_modified = 0 then
      .exit { s3 with final_status := "PARTIAL",
                      final_message := "Fixer could not apply fixes" }
    else
      let test_result := A.judge iter'
      let s4 : Stats := { s3 with judgeLog := s3.judgeLog ++ [iter'] }
      if test_result.all_passed then
        .exit { s4 with final_status := "SUCCESS",
                        final_message := "Refactoring succeeded after " ++
                          toString iter' ++ " iteration(s)" }
      else if test_result.judge_action = "REQUIRE_HUMAN" then
        .exit { s4 with final_status := "NEEDS_HUMAN",
                        final_message := "Human intervention required: " ++
                          test_result.judge_reason }
      else if test_result.judge_action = "STOP" then
        .exit { s4 with final_status := "STOPPED",
                        final_message := "Judge stopped process: " ++
                          test_result.judge_reason }
      else if maxIter ≤ iter' then
        .exit { s4 with final_status := "MAX_ITERATIONS",
                        final_message := "Max iterations reached (" ++
                          toString maxIter ++ ")" }
      else
        .next s4

/-- The orchestrator's `while iteration < max_iterations` loop (lines 86-170)
starting at iteration counter `iter`.  `remaining` is `maxIter - iter`, the
number of further passes the while guard permits: `remaining = 0` is exactly
the case `iteration >= max_iterations` in which the while loop exits. -/
def loopFrom (A : Adapters) (maxIter : Nat) : Nat → Nat → Stats → Stats
  | _, 0, s => s
  | iter, remaining + 1, s =>
    match loopStep A maxIter (iter + 1) s with
    | .exit t => t
    | .next t => loopFrom A maxIter (iter + 1) remaining t

/-- `CodeRefactorOrchestrator.refactor`: runs the loop from iteration 0
with the full budget. -/
def refactor (A : Adapters) (maxIter : Nat) : Stats :=
  loopFrom A maxIter 0 maxIter initStats

/-! ## Orchestrator lemmas -/

/-- A plan with a positive total issue count is a non-empty dict. -/
lemma audit_ne_nil_of_pos_issues (plan : List (String × List String))
    (h : 0 < (plan.map fun p => (p.2.length : Int)).sum) : plan ≠ [] := by
  intro hnil
  rw [hnil] at h
  simp at h

/-- Every outcome of a loop pass carries `iterations = iter'`: the body sets
the counter to the incremented value and no later assignment touches it. -/
lemma loopStep_iterations (A : Adapters) (maxIter iter' : Nat) (s : Stats) :
    (∀ t, loopStep A maxIter iter' s = .exit t → t.iterations = iter') ∧
    (∀ t, loopStep A maxIter iter' s = .next t → t.iterations = iter') := by
  constructor <;>
  · intro t h
    simp only [loopStep] at h
    repeat' split at h
    all_goals cases h
    all_goals rfl

/-- The iteration counter never exceeds `maxIter`: the while guard admits at
most `remaining` further passes and each pass increments the counter once. -/
lemma loopFrom_iterations_le (A : Adapters) (maxIter : Nat) :
    ∀ r iter s, s.iterations ≤ maxIter → iter + r ≤ maxIter →
      (loopFrom A maxIter iter r s).iterations ≤ maxIter := by
  intro r
  induction r with
  | zero => intro iter s hs _; simpa [loopFrom] using hs
  | succ r ih =>
    intro iter s hs hle
    have h1 : iter + 1 ≤ maxIter := by omega
    simp only [loopFrom]
    rcases hstep : loopStep A maxIter (iter + 1) s with t | t
    · simpa [(loopStep_iterations A maxIter (iter + 1) s).1 t hstep] using h1
    · exact ih (iter + 1) t
        (by simpa [(loopStep_iterations A maxIter (iter + 1) s).2 t hstep] using h1)
        (by omega)

/-- With non-converging adapters (non-empty plans, a fixer that always
modifies at least one file, a judge that never passes and never requests
STOP or REQUIRE_HUMAN), the loop runs down its whole budget and exits with
MAX_ITERATIONS at iteration `maxIter`. -/
lemma loopFrom_max_iterations (A : Adapters) (maxIter : Nat)
    (haudit : ∀ i, A.audit i ≠ [])
    (hfix : ∀ i, 1 ≤ (A.fix i).files_modified)
    (hjp : ∀ i, (A.judge i).all_passed = false)
    (hja : ∀ i, (A.judge i).judge_action ≠ "REQUIRE_HUMAN" ∧
                 (A.judge i).judge_action ≠ "STOP") :
    ∀ r iter s, maxIter = iter + r → 1 ≤ r →
      (loopFrom A maxIter iter r s).final_status = "MAX_ITERATIONS" ∧
      (loopFrom A maxIter iter r s).iterations = maxIter := by
  intro r
  induction r with
  | zero => intro iter s _ h; exact absurd h (by omega)
  | succ r ih =>
    intro iter s hmax _
    have hne : (A.audit (iter + 1)).isEmpty = false := by
      simpa [List.isEmpty_iff] using haudit (iter + 1)
    have hfm : ¬ (A.fix (iter + 1)).files_modified = 0 := by
      have := hfix (iter + 1); omega
    by_cases hmle : maxIter ≤ iter + 1
    · simp only [loopFrom, loopStep, hne, hfm, hjp (iter + 1), (hja (iter + 1)).1,
        (hja (iter + 1)).2, hmle, Bool.false_eq_true, if_false, if_true, ite_false,
        ite_true]
      exact ⟨trivial, by omega⟩
    · simp only [loopFrom, loopStep, hne, hfm, hjp (iter + 1), (hja (iter + 1)).1,
        (hja (iter + 1)).2, hmle, Bool.false_eq_true, if_false, if_true, ite_false,
        ite_true]
      exact ih (iter + 1) _ (by omega) (by omega)

/-- Each pass of the loop body only ever adds to the two cumulative counters:
the AUDIT phase adds the plan's total issue count (a sum of list lengths,
hence non-negative) and the FIX phase adds the adapter's `files_modified`. -/
lemma loopStep_counters_mono (A : Adapters) (maxIter iter' : Nat) (s : Stats)
    (hfm : 0 ≤ (A.fix iter').files_modified) :
    (∀ t, loopStep A maxIter iter' s = .exit t →
        s.total_issues_found ≤ t.total_issues_found ∧
        s.total_files_modified ≤ t.total_files_modified) ∧
    (∀ t, loopStep A maxIter iter' s = .next t →
        s.total_issues_found ≤ t.total_issues_found ∧
        s.total_files_modified ≤ t.total_files_modified) := by
  have hsum : 0 ≤ ((A.audit iter').map fun p => (p.2.length : Int)).sum := by
    apply List.sum_nonneg
    intro x hx
    obtain ⟨p, _, rfl⟩ := List.mem_map.mp hx
    exact Int.natCast_nonneg _
  constructor <;>
  · intro t h
    simp only [loopStep] at h
    repeat' split at h
    all_goals cases h
    all_goals
      exact ⟨by first | exact le_rfl | exact le_add_of_nonneg_right hsum,
             by first | exact le_rfl | exact le_add_of_nonneg_right hfm⟩

/-- The cumulative counters never decrease over any remainder of the run. -/
lemma loopFrom_counters_mono (A : Adapters) (maxIter : Nat)
    (hfix : ∀ i, 0 ≤ (A.fix i).files_modified) :
    ∀ r iter s,
      s.total_issues_found ≤ (loopFrom A maxIter iter r s).total_issues_found ∧
      s.total_files_modified ≤ (loopFrom A maxIter iter r s).total_files_modified := by
  intro r
  induction r with
  | zero => intro iter s; simp [loopFrom]
  | succ r ih =>
    intro iter s
    simp only [loopFrom]
    rcases hstep : loopStep A maxIter (iter + 1) s with t | t
    · exact (loopStep_counters_mono A maxIter (iter + 1) s (hfix _)).1 t hstep
    · have h1 := (loopStep_counters_mono A maxIter (iter + 1) s (hfix _)).2 t hstep
      have h2 := ih (iter + 1) t
      exact ⟨le_trans h1.1 h2.1, le_trans h1.2 h2.2⟩

/-! ## Claims about the control loop -/

/-- C1 (Stall termination): from any reachable loop state, if the AUDIT
phase of the next pass produces a Plan with at least one issue while the
FIX phase reports `files_modified = 0`, the loop terminates in that same
iteration with final status PARTIAL, without invoking the Judge (the judge
invocation log is unchanged), regardless of how many passes (`r`) remain in
the budget. -/
theorem stall_termination (A : Adapters) (maxIter iter r : Nat) (s : Stats)
    (hplan : 0 < ((A.audit (iter + 1)).map fun p => (p.2.length : Int)).sum)
    (hfix : (A.fix (iter + 1)).files_modified = 0) :
    (loopFrom A maxIter iter (r + 1) s).final_status = "PARTIAL" ∧
    (loopFrom A maxIter iter (r + 1) s).final_message = "Fixer could not apply fixes" ∧
    (loopFrom A maxIter iter (r + 1) s).iterations = iter + 1 ∧
    (loopFrom A maxIter iter (r + 1) s).judgeLog = s.judgeLog := by
  have hne : (A.audit (iter + 1)).isEmpty = false := by
    simpa [List.isEmpty_iff] using audit_ne_nil_of_pos_issues _ hplan
  simp [loopFrom, loopStep, hne, hfix]

/-- A Fixer stub that always reports zero modified files, facing an Auditor
stub that always reports one issue. -/
def stallAdapters : Adapters :=
  { audit := fun _ => [("a.py", ["missing docstring"])]
    fix := fun _ => { files_modified := 0, fixes_log := [] }
    judge := fun _ => { all_passed := true, judge_status := "PASS",
                        judge_action := "STOP", judge_reason := "" } }

/-- Witness for C1: with `max_iterations = 5` the stalling run ends PARTIAL
at iteration 1 and never calls the Judge. -/
theorem stall_termination_witness :
    (0 : Int) < ((stallAdapters.audit (0 + 1)).map fun p => (p.2.length : Int)).sum ∧
    (loopFrom stallAdapters 5 0 (4 + 1) initStats).final_status = "PARTIAL" ∧
    (loopFrom stallAdapters 5 0 (4 + 1) initStats).iterations = 0 + 1 ∧
    (loopFrom stallAdapters 5 0 (4 + 1) initStats).judgeLog = initStats.judgeLog :=
  ⟨by decide,
   (stall_termination stallAdapters 5 0 4 initStats (by decide) (by decide)).1,
   (stall_termination stallAdapters 5 0 4 initStats (by decide) (by decide)).2.2.1,
   (stall_termination stallAdapters 5 0 4 initStats (by decide) (by decide)).2.2.2⟩

/-- C2 (Budget respect): the loop executes at most `max_iterations`
iterations, and with adapters that never converge (non-empty plans, a Fixer
that always modifies at least one file, a Judge that never passes and whose
action is neither STOP nor REQUIRE_HUMAN) it terminates at exactly
`iteration = max_iterations` with final status MAX_ITERATIONS. -/
theorem budget_respect (A : Adapters) (maxIter : Nat) :
    (refactor A maxIter).iterations ≤ maxIter ∧
    (1 ≤ maxIter →
      (∀ i, A.audit i ≠ []) →
      (∀ i, 1 ≤ (A.fix i).files_modified) →
      (∀ i, (A.judge i).all_passed = false) →
      (∀ i, (A.judge i).judge_action ≠ "REQUIRE_HUMAN" ∧
            (A.judge i).judge_action ≠ "STOP") →
      (refactor A maxIter).final_status = "MAX_ITERATIONS" ∧
      (refactor A maxIter).iterations = maxIter) := by
  constructor
  · exact loopFrom_iterations_le A maxIter maxIter 0 initStats
      (by simp [initStats]) (by omega)
  · intro h1 h2 h3 h4 h5
    exact loopFrom_max_iterations A maxIter h2 h3 h4 h5 maxIter 0 initStats (by omega) h1

/-- Non-converging stub adapters: the Fixer always modifies one file and the
Judge always answers `all_passed = false, action = RETURN_TO_AUDIT`. -/
def churnAdapters : Adapters :=
  { audit := fun _ => [("a.py", ["unused import"])]
    fix := fun _ => { files_modified := 1, fixes_log := ["removed import"] }
    judge := fun _ => { all_passed := false, judge_status := "FAIL_TEST",
                        judge_action := "RETURN_TO_AUDIT",
                        judge_reason := "tests still failing" } }

/-- Witness for C2: the non-converging run with budget 3 stops at exactly
iteration 3 with MAX_ITERATIONS. -/
theorem budget_respect_witness :
    (refactor churnAdapters 3).final_status = "MAX_ITERATIONS" ∧
    (refactor churnAdapters 3).iterations = 3 :=
  (budget_respect churnAdapters 3).2 (by decide) (by intro i; simp [churnAdapters])
    (by intro i; norm_num [churnAdapters]) (by intro i; simp [churnAdapters])
    (by intro i; simp [churnAdapters])

/-- C4 amended: a REQUIRE_HUMAN verdict terminates the loop in the same
iteration, but with NEEDS_HUMAN only when `all_passed = false`; when the
same verdict carries `all_passed = true`, the pass flag is checked first
and the loop terminates SUCCESS instead. -/
theorem require_human_vs_all_passed (A : Adapters) (maxIter iter r : Nat) (s : Stats)
    (hplan : A.audit (iter + 1) ≠ [])
    (hfm : (A.fix (iter + 1)).files_modified ≠ 0)
    (hact : (A.judge (iter + 1)).judge_action = "REQUIRE_HUMAN") :
    ((A.judge (iter + 1)).all_passed = false →
      (loopFrom A maxIter iter (r + 1) s).final_status = "NEEDS_HUMAN" ∧
      (loopFrom A maxIter iter (r + 1) s).iterations = iter + 1) ∧
    ((A.judge (iter + 1)).all_passed = true →
      (loopFrom A maxIter iter (r + 1) s).final_status = "SUCCESS" ∧
      (loopFrom A maxIter iter (r + 1) s).iterations = iter + 1) := by
  have hne : (A.audit (iter + 1)).isEmpty = false := by
    simpa [List.isEmpty_iff] using hplan
  constructor <;> intro hp <;> simp [loopFrom, loopStep, hne, hfm, hact, hp]

/-- Stub adapters whose Judge reports `all_passed = true` together with
`action = REQUIRE_HUMAN`. -/
def humanPassAdapters : Adapters :=
  { audit := fun _ => [("a.py", ["bug"])]
    fix := fun _ => { files_modified := 1, fixes_log := [] }
    judge := fun _ => { all_passed := true, judge_status := "PASS",
                        judge_action := "REQUIRE_HUMAN",
                        judge_reason := "manual review requested" } }

/-- Stub adapters whose Judge reports `all_passed = false` together with
`action = REQUIRE_HUMAN`. -/
def humanFailAdapters : Adapters :=
  { audit := fun _ => [("a.py", ["bug"])]
    fix := fun _ => { files_modified := 1, fixes_log := [] }
    judge := fun _ => { all_passed := false, judge_status := "FAIL_UNCERTAIN",
                        judge_action := "REQUIRE_HUMAN",
                        judge_reason := "manual review requested" } }

/-- C4 counterexample: with a verdict carrying both `all_passed = true` and
`action = REQUIRE_HUMAN`, the run terminates SUCCESS, not NEEDS_HUMAN —
the claim that escalation takes precedence over the pass flag is false on
the code. -/
theorem require_human_counterexample :
    (humanPassAdapters.judge 1).judge_action = "REQUIRE_HUMAN" ∧
    (humanPassAdapters.judge 1).all_passed = true ∧
    (refactor humanPassAdapters 5).final_status = "SUCCESS" ∧
    ¬ (refactor humanPassAdapters 5).final_status = "NEEDS_HUMAN" := by
  decide

/-- Witness for the amended C4: both sides instantiated on stub adapters. -/
theorem require_human_vs_all_passed_witness :
    (loopFrom humanFailAdapters 5 0 (4 + 1) initStats).final_status = "NEEDS_HUMAN" ∧
    (loopFrom humanPassAdapters 5 0 (4 + 1) initStats).final_status = "SUCCESS" :=
  ⟨((require_human_vs_all_passed humanFailAdapters 5 0 4 initStats (by decide)
      (by decide) (by decide)).1 (by decide)).1,
   ((require_human_vs_all_passed humanPassAdapters 5 0 4 initStats (by decide)
      (by decide) (by decide)).2 (by decide)).1⟩

/-- C9 (Monotonic statistics): whenever each FIX outcome reports a
non-negative `files_modified` (as the Fixer's count of files written always
is), the cumulative counters `total_issues_found` and
`total_files_modified` are non-decreasing over any remainder of the run —
each iteration adds a non-negative quantity — and a full run ends with
non-negative counters. -/
theorem statistics_monotone (A : Adapters) (maxIter : Nat)
    (hfix : ∀ i, 0 ≤ (A.fix i).files_modified) (r iter : Nat) (s : Stats) :
    (s.total_issues_found ≤ (loopFrom A maxIter iter r s).total_issues_found ∧
     s.total_files_modified ≤ (loopFrom A maxIter iter r s).total_files_modified) ∧
    (0 ≤ (refactor A maxIter).total_issues_found ∧
     0 ≤ (refactor A maxIter).total_files_modified) := by
  refine ⟨loopFrom_counters_mono A maxIter hfix r iter s, ?_⟩
  have h := loopFrom_counters_mono A maxIter hfix maxIter 0 initStats
  exact ⟨le_trans (by simp [initStats]) h.1, le_trans (by simp [initStats]) h.2⟩

/-- Witness for C9 on the non-converging stub run. -/
theorem statistics_monotone_witness :
    (initStats.total_issues_found ≤
       (loopFrom churnAdapters 3 0 3 initStats).total_issues_found ∧
     initStats.total_files_modified ≤
       (loopFrom churnAdapters 3 0 3 initStats).total_files_modified) ∧
    (0 ≤ (refactor churnAdapters 3).total_issues_found ∧
     0 ≤ (refactor churnAdapters 3).total_files_modified) :=
  statistics_monotone churnAdapters 3 (by intro i; norm_num [churnAdapters]) 3 0 initStats

/-! ## The real Auditor/Orchestrator composition (claim C3)

`AuditorAgent.analyze` returns the dict
`{"issues_found": int, "plan": dict, "files_analyzed": list}`
(auditor_agent.py lines 92-96), while the orchestrator applies `if not plan`
and `sum(len(issues) for issues in plan.values())` to that very value
(orchestrator.py lines 96-104).  To settle what those two lines do to the
returned dict we model untyped Python values. -/

/-- Untyped Python values, as far as the audit phase inspects them. -/
inductive PyVal where
  | vInt (n : Int)
  | vStr (s : String)
  | vBool (b : Bool)
  | vList (xs : List PyVal)
  | vDict (kvs : List (String × PyVal))
  deriving Repr

/-- Python `len`: defined on strings, lists and dicts; `len` of an `int`
raises `TypeError`, modelled as `none`. -/
def pyLen : PyVal → Option Nat
  | .vStr s => some s.length
  | .vList xs => some xs.length
  | .vDict kvs => some kvs.length
  | _ => none

/-- The result `AuditorAgent.analyze` builds (auditor_agent.py lines 92-96
and the two failure paths at lines 55-59 and 113-117). -/
structure AnalyzeResult where
  issues_found : Nat
  plan : List (String × List String)
  files_analyzed : List String
  deriving Repr, DecidableEq

/-- The Python dict literal that `AuditorAgent.analyze` actually returns:
`{"issues_found": ..., "plan": ..., "files_analyzed": ...}`. -/
def analyzeResultDict (r : AnalyzeResult) : List (String × PyVal) :=
  [("issues_found", .vInt r.issues_found),
   ("plan", .vDict (r.plan.map fun p => (p.1, .vList (p.2.map PyVal.vStr)))),
   ("files_analyzed", .vList (r.files_analyzed.map PyVal.vStr))]

/-- What the audit phase of one orchestrator iteration does with the value
`plan` returned by `self.auditor.analyze(target_dir)`. -/
inductive AuditPhaseResult where
  | successBreak
  | continueFix (total_issues : Nat)
  | typeError
  deriving Repr, DecidableEq

/-- Orchestrator lines 96-104 applied to the raw value returned by the
Auditor: `if not plan` tests Python truthiness of the dict (false iff the
dict has no keys) and then `sum(len(issues) for issues in plan.values())`
applies `len` to every value of that dict, raising `TypeError` on the first
value that has no `len` (modelled by `pyLen` returning `none`). -/
def orchestratorAuditPhase (plan : List (String × PyVal)) : AuditPhaseResult :=
  if plan.isEmpty then .successBreak
  else
    match plan.mapM (fun kv => pyLen kv.2) with
    | some lens => .continueFix lens.sum
    | none => .typeError

/-- C3 (Empty-plan short-circuit) fails on the code: whatever
`AuditorAgent.analyze` returns — in particular the empty-plan result
`{"issues_found": 0, "plan": {}, "files_analyzed": []}` — the dict the
orchestrator receives has the three keys `issues_found`, `plan` and
`files_analyzed`, so `if not plan` is never taken (no SUCCESS break), and
the following `sum(len(issues) for issues in plan.values())` hits the
`int` value of `issues_found` and raises `TypeError` instead of
terminating the run with SUCCESS. -/
theorem empty_plan_short_circuit_is_unreachable :
    (∀ r : AnalyzeResult,
      (analyzeResultDict r).isEmpty = false ∧
      orchestratorAuditPhase (analyzeResultDict r) = .typeError) ∧
    orchestratorAuditPhase
      (analyzeResultDict { issues_found := 0, plan := [], files_analyzed := [] }) =
        .typeError ∧
    orchestratorAuditPhase
      (analyzeResultDict { issues_found := 0, plan := [], files_analyzed := [] }) ≠
        .successBreak := by
  exact ⟨fun r => ⟨rfl, rfl⟩, rfl, by decide⟩

/-! ## Judge agent (judge_agent.py) -/

/-- The dict returned by `run_pytest` (tools/run_pytest.py). -/
structure PytestResult where
  success : Bool
  stdout : String
  stderr : String
  deriving Repr, DecidableEq

/-- The summary dict built by `JudgeAgent._parse_pytest_output`. -/
structure PytestSummary where
  total : Nat
  passed : Nat
  failed : Nat
  deriving Repr, DecidableEq

/-- Python `int` applied to a run of digit characters. -/
def digitsToNat (ds : List Char) : Nat :=
  ds.foldl (fun acc c => acc * 10 + (c.toNat - 48)) 0

/-- `re.search(r'(\d+) <suffix>', output)`: scan left to right for the first
position holding a digit whose maximal digit run is immediately followed by
`suffix`, and return that run's value.  (For this pattern the greedy,
backtracking regex engine coincides with taking the maximal digit run: a
shorter run would have to be followed by a digit where the pattern demands
the first character of `suffix`.) -/
def reSearchIntBefore (suffix : List Char) : List Char → Option Nat
  | [] => none
  | c :: rest =>
    if c.isDigit then
      let run := (c :: rest).takeWhile Char.isDigit
      let after := (c :: rest).dropWhile Char.isDigit
      if suffix.isPrefixOf after then some (digitsToNat run)
      else reSearchIntBefore suffix rest
    else reSearchIntBefore suffix rest

/-- `JudgeAgent._parse_pytest_output` (judge_agent.py lines 105-122):
extract `passed` and `failed` from `stdout + stderr` (0 when the pattern is
absent) and set `total = passed + failed`. -/
def parse_pytest_output (stdout stderr : String) : PytestSummary :=
  let output := (stdout ++ stderr).data
  let passed := (reSearchIntBefore " passed".data output).getD 0
  let failed := (reSearchIntBefore " failed".data output).getD 0
  { total := passed + failed, passed := passed, failed := failed }

/-- Python `dict.get(key, default)` on a string-keyed dict. -/
def dictGet (d : List (String × PyVal)) (key : String) (dflt : PyVal) : PyVal :=
  match d.find? (fun kv => kv.1 == key) with
  | some kv => kv.2
  | none => dflt

/-- `JudgeAgent.run_tests` (judge_agent.py lines 29-103).  The fallible
external work of the `try` block — `run_pytest` — is the `Except`
parameter: `.error e` models an exception `e` raised while running the
tests, caught by the handler at lines 86-103.  `judgeDecision` is the dict
produced by `_get_llm_judgment` (which catches its own exceptions and never
raises).  The returned value is the Python dict built at lines 76-84,
resp. lines 98-103 in the handler. -/
def run_tests (runPytest : Except String PytestResult)
    (judgeDecision : List (String × PyVal)) : List (String × PyVal) :=
  match runPytest with
  | .ok r =>
    let summary := parse_pytest_output r.stdout r.stderr
    [("all_passed", .vBool r.success),
     ("total_tests", .vInt summary.total),
     ("passed", .vInt summary.passed),
     ("failures", .vInt summary.failed),
     ("judge_status", dictGet judgeDecision "status" (.vStr "UNKNOWN")),
     ("judge_reason", dictGet judgeDecision "reason" (.vStr "No reason provided")),
     ("judge_action", dictGet judgeDecision "action" (.vStr "STOP"))]
  | .error e =>
    [("all_passed", .vBool false),
     ("judge_status", .vStr "FAIL_UNCERTAIN"),
     ("judge_reason", .vStr ("Error running tests: " ++ e.take 100)),
     ("judge_action", .vStr "STOP")]

/-- C8 (Verdict count consistency): for every pytest stdout/stderr the
parsed summary satisfies `total = passed + failed` with non-negative
counts, and the verdict dict `run_tests` returns reports exactly those
counts under the keys `total_tests`, `passed` and `failures`. -/
theorem verdict_counts_consistent (stdout stderr : String) (success : Bool)
    (jd : List (String × PyVal)) :
    (parse_pytest_output stdout stderr).total =
      (parse_pytest_output stdout stderr).passed +
        (parse_pytest_output stdout stderr).failed ∧
    (0 : Int) ≤ (parse_pytest_output stdout stderr).total ∧
    (0 : Int) ≤ (parse_pytest_output stdout stderr).passed ∧
    (0 : Int) ≤ (parse_pytest_output stdout stderr).failed ∧
    dictGet (run_tests (.ok ⟨success, stdout, stderr⟩) jd) "total_tests" (.vInt 0) =
      .vInt ((parse_pytest_output stdout stderr).total) ∧
    dictGet (run_tests (.ok ⟨success, stdout, stderr⟩) jd) "passed" (.vInt 0) =
      .vInt ((parse_pytest_output stdout stderr).passed) ∧
    dictGet (run_tests (.ok ⟨success, stdout, stderr⟩) jd) "failures" (.vInt 0) =
      .vInt ((parse_pytest_output stdout stderr).failed) :=
  ⟨rfl, Int.natCast_nonneg _, Int.natCast_nonneg _, Int.natCast_nonneg _,
   rfl, rfl, rfl⟩

/-- C5 amended: every exception caught by `run_tests` maps to the verdict
`all_passed = False, judge_status = "FAIL_UNCERTAIN", judge_action = "STOP"`
(the handler result, returned instead of propagating the exception); the
failure is never converted into `all_passed = true`. -/
theorem judge_failure_maps_to_stop (e : String) (jd : List (String × PyVal)) :
    run_tests (.error e) jd =
      [("all_passed", .vBool false),
       ("judge_status", .vStr "FAIL_UNCERTAIN"),
       ("judge_reason", .vStr ("Error running tests: " ++ e.take 100)),
       ("judge_action", .vStr "STOP")] ∧
    dictGet (run_tests (.error e) jd) "all_passed" (.vBool false) = .vBool false ∧
    dictGet (run_tests (.error e) jd) "judge_status" (.vStr "UNKNOWN") =
      .vStr "FAIL_UNCERTAIN" ∧
    dictGet (run_tests (.error e) jd) "judge_action" (.vStr "STOP") = .vStr "STOP" :=
  ⟨rfl, rfl, rfl, rfl⟩

/-- C5 counterexample: the exception handler of `run_tests` answers
`judge_action = "STOP"`, not `"REQUIRE_HUMAN"` as the claim states. -/
theorem judge_failure_counterexample :
    dictGet (run_tests (.error "pytest subprocess crashed") []) "judge_action"
      (.vStr "STOP") = .vStr "STOP" ∧
    ¬ dictGet (run_tests (.error "pytest subprocess crashed") []) "judge_action"
      (.vStr "STOP") = .vStr "REQUIRE_HUMAN" := by
  refine ⟨rfl, fun h => ?_⟩
  simp [run_tests, dictGet] at h

/-! ## JSON extraction from worker output (claim C7) -/

deriving instance DecidableEq for Except

/-- The opening-brace character (code point 123). -/
def lbrace : Char := Char.ofNat 123

/-- The closing-brace character (code point 125). -/
def rbrace : Char := Char.ofNat 125

/-- Python `str.strip()`: drop leading and trailing whitespace. -/
def pyStrip (s : String) : String :=
  String.mk
    (((s.data.dropWhile Char.isWhitespace).reverse.dropWhile
        Char.isWhitespace).reverse)

/-- Python `str.find(ch)`: index of the first occurrence, `none` for -1. -/
def findIdxCh (ch : Char) : List Char → Option Nat
  | [] => none
  | c :: rest => if c = ch then some 0 else (findIdxCh ch rest).map (· + 1)

/-- Python `str.rfind(ch)`: index of the last occurrence, `none` for -1. -/
def rfindIdx (ch : Char) : List Char → Option Nat
  | [] => none
  | c :: rest =>
    match rfindIdx ch rest with
    | some k => some (k + 1)
    | none => if c = ch then some 0 else none

/-- The brace search of `_extract_json_from_response` (judge_agent.py lines
199-206): `start = cleaned.find` of the opening brace, `end = cleaned.rfind`
of the closing brace plus one, and the slice `cleaned[start:end]` when
`start >= 0 and end > start`; otherwise the method raises
`ValueError("No valid JSON found in response")`. -/
def naiveJsonSlice (cs : List Char) : Except String (List Char) :=
  match findIdxCh lbrace cs, rfindIdx rbrace cs with
  | some i, some j =>
    if i < j + 1 then .ok ((cs.drop i).take (j + 1 - i))
    else .error "No valid JSON found in response"
  | _, _ => .error "No valid JSON found in response"

/-- Substring containment on character lists. -/
def containsSub (sub : List Char) : List Char → Bool
  | [] => sub.isEmpty
  | c :: rest => sub.isPrefixOf (c :: rest) || containsSub sub rest

/-- Python `in` on strings: substring containment. -/
def pyIn (sub s : String) : Bool := containsSub sub.data s.data

/-- `JudgeAgent._extract_json_from_response` (judge_agent.py lines 183-206):
strip, remove markdown code fences, then locate the JSON candidate by the
naive first-opening-brace / last-closing-brace search.  The candidate is
what the method hands to `json.loads` (whose parse failure, like the
`ValueError`, is caught by `_get_llm_judgment`). -/
def extract_json_from_response (llm_output : String) : Except String String :=
  let cleaned := pyStrip llm_output
  let cleaned :=
    if pyIn "```json" cleaned then
      let c := (cleaned.splitOn "```json").getD 1 ""
      if pyIn "```" c then (c.splitOn "```").getD 0 "" else c
    else if pyIn "```" cleaned then
      let parts := cleaned.splitOn "```"
      if 2 ≤ parts.length then parts.getD 1 "" else cleaned
    else cleaned
  let cleaned := pyStrip cleaned
  (naiveJsonSlice cleaned.data).map fun cs => String.mk cs

/-- The spec's algorithm (spec.md, Issue/Plan Normalizer): a balanced-brace
scan locating the first complete JSON object — depth rises at an opening
brace, falls at a closing one, and the object ends where depth returns to
zero; `none` when no complete object exists. -/
def takeBalanced : Nat → List Char → List Char → Option (List Char)
  | _, _, [] => none
  | depth, acc, c :: rest =>
    if c = lbrace then takeBalanced (depth + 1) (acc ++ [c]) rest
    else if c = rbrace then
      if depth = 1 then some (acc ++ [c])
      else takeBalanced (depth - 1) (acc ++ [c]) rest
    else takeBalanced depth (acc ++ [c]) rest

/-- The first complete (balanced) JSON object of a string, per the spec's
balanced-brace scan, starting at the first opening brace. -/
def balancedBraceFirstObject (s : String) : Option String :=
  (takeBalanced 0 [] (s.data.dropWhile fun c => ¬ c = lbrace)).map String.mk

/-- The greedy dot-all regex search (first opening brace through anything to
a closing brace) of `FixerAgent._apply_targeted_fixes` (fixer_agent.py
lines 107-115): a match spans from the first opening brace to the last
closing brace whenever the latter comes strictly after the former. -/
def fixer_issue_json_candidate (issue : String) : Option String :=
  match findIdxCh lbrace issue.data, rfindIdx rbrace issue.data with
  | some i, some j =>
    if i < j then some (String.mk ((issue.data.drop i).take (j + 1 - i)))
    else none
  | _, _ => none

/-- A worker response whose free text after the JSON object contains a
stray closing brace. -/
def strayBraceOutput : String := "\x7b\"status\": \"PASS\"\x7d ignore \x7d"

/-- The first complete JSON object inside `strayBraceOutput`. -/
def strayBraceFirstObject : String := "\x7b\"status\": \"PASS\"\x7d"

/-- C7 counterexample: on a response with a stray closing brace after the
JSON object, the Judge's extraction (and likewise the Fixer's regex) spans
to the last closing brace and does not yield the first complete object the
balanced-brace scan finds. -/
theorem balanced_brace_counterexample :
    balancedBraceFirstObject strayBraceOutput = some strayBraceFirstObject ∧
    extract_json_from_response strayBraceOutput = .ok strayBraceOutput ∧
    ¬ extract_json_from_response strayBraceOutput = .ok strayBraceFirstObject ∧
    fixer_issue_json_candidate strayBraceOutput = some strayBraceOutput ∧
    ¬ fixer_issue_json_candidate strayBraceOutput = some strayBraceFirstObject := by
  decide

/-- The index returned by `rfind` is a valid index of the text. -/
lemma rfindIdx_lt_length (ch : Char) :
    ∀ cs : List Char, ∀ j, rfindIdx ch cs = some j → j < cs.length := by
  intro cs
  induction cs with
  | nil => intro j h; cases h
  | cons c rest ih =>
    intro j h
    rw [rfindIdx] at h
    rcases hr : rfindIdx ch rest with _ | k <;> rw [hr] at h <;> dsimp only [] at h
    · split at h
      · cases h
        simp
      · cases h
    · cases h
      have := ih k hr
      simp only [List.length_cons]
      omega

/-- C7 amended: the extraction locates the JSON candidate by the naive
first-opening-brace / last-closing-brace search (after code-fence
stripping), not by a balanced-brace scan; consequently, whenever the text
has its first opening brace at `i` and its last closing brace at `j` with
the first complete balanced object shorter than that span — as happens when
free text after the object contains stray closing braces — the extracted
candidate is the full slice from `i` through `j` and is not the first
complete object. -/
theorem naive_extraction_amended (cs : List Char) (i j : Nat) (obj : List Char)
    (hi : findIdxCh lbrace cs = some i) (hj : rfindIdx rbrace cs = some j)
    (hij : i < j + 1)
    (_hb : takeBalanced 0 [] (cs.dropWhile fun c => ¬ c = lbrace) = some obj)
    (hlen : obj.length < j + 1 - i) :
    (∀ s : String,
      pyIn "```json" (pyStrip s) = false → pyIn "```" (pyStrip s) = false →
      extract_json_from_response s =
        (naiveJsonSlice (pyStrip (pyStrip s)).data).map fun out => String.mk out) ∧
    naiveJsonSlice cs = .ok ((cs.drop i).take (j + 1 - i)) ∧
    ((cs.drop i).take (j + 1 - i)).length = j + 1 - i ∧
    ¬ naiveJsonSlice cs = .ok obj := by
  have hjlen : j < cs.length := rfindIdx_lt_length rbrace cs j hj
  have h1 : naiveJsonSlice cs = .ok ((cs.drop i).take (j + 1 - i)) := by
    simp [naiveJsonSlice, hi, hj, hij]
  have h2 : ((cs.drop i).take (j + 1 - i)).length = j + 1 - i := by
    simp only [List.length_take, List.length_drop]
    omega
  refine ⟨?_, h1, h2, fun h => ?_⟩
  · intro s hjson hfence
    simp [extract_json_from_response, hjson, hfence]
  · rw [h1] at h
    injection h with h'
    have := congrArg List.length h'
    rw [h2] at this
    omega

/-- Witness for the amended C7 at the stray-brace response. -/
theorem naive_extraction_amended_witness :
    extract_json_from_response strayBraceOutput =
      (naiveJsonSlice (pyStrip (pyStrip strayBraceOutput)).data).map
        (fun out => String.mk out) ∧
    naiveJsonSlice strayBraceOutput.data =
      .ok ((strayBraceOutput.data.drop 0).take (26 + 1 - 0)) ∧
    ¬ naiveJsonSlice strayBraceOutput.data = .ok strayBraceFirstObject.data := by
  have h := naive_extraction_amended strayBraceOutput.data 0 26
    strayBraceFirstObject.data (by decide) (by decide) (by decide) (by decide)
    (by decide)
  exact ⟨h.1 strayBraceOutput (by decide) (by decide), h.2.1, h.2.2.2⟩

/-! ## Auditor agent (auditor_agent.py, claim C6) -/

/-- Classification of an exception inside `_analyze_file`'s try block: a
quota error (a "429"/"quota" message, retried with backoff) or any other
failure, including an unparsable LLM response (`json.loads` raising). -/
inductive LLMError where
  | quota
  | other (msg : String)
  deriving Repr, DecidableEq

/-- The retry loop of `AuditorAgent._analyze_file` (lines 142-199):
`attempt retry_count` is the outcome of the LLM call plus JSON parse at
that retry count (`max_retries = 3`).  A success returns its issue list; a
quota error retries while `retry_count < 3` after incrementing; any other
error — in particular a malformed response — returns the empty issue list.
The second argument is the number of loop passes the guard still admits
(`3 - retry_count`), and both the guard exit and the post-loop fall-through
return the empty list. -/
def analyzeFileGo (attempt : Nat → Except LLMError (List String)) :
    Nat → Nat → List String
  | _, 0 => []
  | retry_count, tries + 1 =>
    match attempt retry_count with
    | .ok issues => issues
    | .error .quota =>
      if retry_count + 1 < 3 then analyzeFileGo attempt (retry_count + 1) tries
      else []
    | .error (.other _) => []

/-- `AuditorAgent._analyze_file`: the retry loop started at
`retry_count = 0` with `max_retries = 3`. -/
def analyzeFile (attempt : Nat → Except LLMError (List String)) : List String :=
  analyzeFileGo attempt 0 3

/-- Per-file inputs of `AuditorAgent.analyze`'s loop: the file path, the
result of `_check_syntax` and the `_analyze_file` attempt outcomes. -/
structure FileAnalysis where
  path : String
  syntaxErrors : List String
  attempt : Nat → Except LLMError (List String)

/-- One file of the audit loop (auditor_agent.py lines 67-88): `acc` is the
pair `(global_plan, total_issues)`; a file with syntax errors contributes
them directly (lines 74-78, skipping the LLM), otherwise the LLM analysis
contributes its issues when the returned list is non-empty (lines 84-88). -/
def analyzeStep (acc : List (String × List String) × Nat) (f : FileAnalysis) :
    List (String × List String) × Nat :=
  if f.syntaxErrors.isEmpty = false then
    (acc.1 ++ [(f.path, f.syntaxErrors)], acc.2 + f.syntaxErrors.length)
  else
    let issues := analyzeFile f.attempt
    if issues.isEmpty = false then
      (acc.1 ++ [(f.path, issues)], acc.2 + issues.length)
    else acc

/-- `AuditorAgent.analyze`'s loop over the listed Python files (lines
49-96): the empty file list short-circuits to the empty result (lines
53-59), otherwise the per-file fold builds the plan and the result dict is
assembled at lines 92-96. -/
def analyzeCore (files : List FileAnalysis) : AnalyzeResult :=
  if files.isEmpty then { issues_found := 0, plan := [], files_analyzed := [] }
  else
    { issues_found := (files.foldl analyzeStep ([], 0)).2
      plan := (files.foldl analyzeStep ([], 0)).1
      files_analyzed := files.map (fun f => f.path) }

/-- `AuditorAgent.analyze` (lines 36-117): the `Except.error` argument
models an exception escaping the body of the top-level `try` (lines
49-96) and reaching the handler at lines 98-117, which returns
`{"issues_found": 0, "plan": {}, "files_analyzed": []}` instead of
propagating. -/
def analyze (outcome : Except String (List FileAnalysis)) : AnalyzeResult :=
  match outcome with
  | .ok files => analyzeCore files
  | .error _ => { issues_found := 0, plan := [], files_analyzed := [] }

/-- `analyzeCore`'s empty-list guard returns the same value the fold gives,
so all three fields are the fold's output on every input. -/
lemma analyzeCore_spec (files : List FileAnalysis) :
    (analyzeCore files).issues_found = (files.foldl analyzeStep ([], 0)).2 ∧
    (analyzeCore files).plan = (files.foldl analyzeStep ([], 0)).1 ∧
    (analyzeCore files).files_analyzed = files.map (fun f => f.path) := by
  cases files with
  | nil => simp [analyzeCore]
  | cons f fs => simp [analyzeCore]

/-- C6 (Audit fails closed): an exception reaching `analyze`'s handler
yields `issues_found = 0` and an empty plan instead of propagating, and a
file whose first LLM attempt fails with a malformed (non-quota) response
contributes an empty issue list — the remaining files are still analyzed
and the run is not aborted. -/
theorem audit_fails_closed (e m : String) (f : FileAnalysis)
    (fs : List FileAnalysis)
    (hsyn : f.syntaxErrors = [])
    (hbad : f.attempt 0 = .error (.other m)) :
    analyze (.error e) = { issues_found := 0, plan := [], files_analyzed := [] } ∧
    analyzeFile f.attempt = [] ∧
    (analyzeCore (f :: fs)).issues_found = (analyzeCore fs).issues_found ∧
    (analyzeCore (f :: fs)).plan = (analyzeCore fs).plan ∧
    (analyzeCore (f :: fs)).files_analyzed =
      f.path :: (analyzeCore fs).files_analyzed := by
  have hfile : analyzeFile f.attempt = [] := by
    show analyzeFileGo f.attempt 0 3 = []
    rw [show analyzeFileGo f.attempt 0 3 = analyzeFileGo f.attempt 0 (2 + 1) from rfl,
      analyzeFileGo, hbad]
  have hstep : analyzeStep ([], 0) f = ([], 0) := by
    simp [analyzeStep, hsyn, hfile]
  refine ⟨rfl, hfile, ?_, ?_, ?_⟩
  · rw [(analyzeCore_spec (f :: fs)).1, (analyzeCore_spec fs).1,
      List.foldl_cons, hstep]
  · rw [(analyzeCore_spec (f :: fs)).2.1, (analyzeCore_spec fs).2.1,
      List.foldl_cons, hstep]
  · rw [(analyzeCore_spec (f :: fs)).2.2, (analyzeCore_spec fs).2.2,
      List.map_cons]

/-- A file whose LLM analysis always fails with a malformed response. -/
def badFile : FileAnalysis :=
  { path := "utils.py"
    syntaxErrors := []
    attempt := fun _ => .error (.other "Expecting value: line 1 column 1") }

/-- A file contributing one syntax-error issue without consulting the LLM. -/
def syntaxFile : FileAnalysis :=
  { path := "broken.py"
    syntaxErrors := ["[ERREUR SYNTAXE ligne 3] invalid syntax"]
    attempt := fun _ => .ok [] }

/-- Witness for C6: a crashed analysis fails closed, and a malformed
response for one file leaves the other files' analysis intact. -/
theorem audit_fails_closed_witness :
    analyze (.error "MISTRAL_API_KEY not found") =
      { issues_found := 0, plan := [], files_analyzed := [] } ∧
    analyzeFile badFile.attempt = [] ∧
    (analyzeCore [badFile, syntaxFile]).issues_found =
      (analyzeCore [syntaxFile]).issues_found ∧
    (analyzeCore [badFile, syntaxFile]).plan = (analyzeCore [syntaxFile]).plan ∧
    (analyzeCore [badFile, syntaxFile]).files_analyzed =
      badFile.path :: (analyzeCore [syntaxFile]).files_analyzed :=
  audit_fails_closed "MISTRAL_API_KEY not found"
    "Expecting value: line 1 column 1" badFile [syntaxFile] rfl rfl

/-! ## Fixer agent (fixer_agent.py, claim C10) -/

/-- Per-file inputs of `FixerAgent.fix_issues`: `readOutcome` is the
`read_file(file_path)` call (`.error` models an exception, caught by the
per-file handler at lines 91-92); `targeted` is the candidate produced by
`_apply_targeted_fixes(original_code, file_issues)` and `llmFixed` the one
produced by `_apply_fixes_with_llm(original_code, file_issues)` — both may
consult the LLM, so they are oracle data here. -/
structure FixFileData where
  path : String
  readOutcome : Except String String
  targeted : String
  llmFixed : String

/-- `FixerAgent._has_syntax_error` (lines 285-293): empty or blank code is
invalid; otherwise `ast.parse` decides, via the oracle `astParseOk`
(true iff `ast.parse(code)` succeeds). -/
def has_syntax_error (astParseOk : String → Bool) (code : String) : Bool :=
  if code = "" ∨ pyStrip code = "" then true
  else ! astParseOk code

/-- One file of the `fix_issues` loop (lines 50-92): the file is written
back (`some (path, written content)`) only when the chosen candidate has no
syntax error and differs from the original; an exception while processing
the file leaves it untouched and uncounted. -/
def processFile (astParseOk : String → Bool) (d : FixFileData) :
    Option (String × String) :=
  match d.readOutcome with
  | .error _ => none
  | .ok original_code =>
    if has_syntax_error astParseOk d.targeted = false then
      if d.targeted ≠ original_code then some (d.path, d.targeted) else none
    else
      if has_syntax_error astParseOk d.llmFixed = false ∧
          d.llmFixed ≠ original_code then
        some (d.path, d.llmFixed)
      else none

/-- `FixerAgent.fix_issues` (lines 31-99) over the files of the plan:
returns the `files_modified` counter together with the log of performed
`write_file` calls (path and written content). -/
def fix_issues (astParseOk : String → Bool) :
    List FixFileData → Nat × List (String × String)
  | [] => (0, [])
  | d :: rest =>
    let r := fix_issues astParseOk rest
    match processFile astParseOk d with
    | some w => (r.1 + 1, w :: r.2)
    | none => r

/-- A candidate that passes `_has_syntax_error` is non-empty, non-blank and
accepted by `ast.parse`. -/
lemma has_syntax_error_false (astParseOk : String → Bool) (code : String)
    (h : has_syntax_error astParseOk code = false) :
    code ≠ "" ∧ pyStrip code ≠ "" ∧ astParseOk code = true := by
  simp only [has_syntax_error] at h
  split at h
  · cases h
  · rename_i hc
    push_neg at hc
    simp at h
    exact ⟨hc.1, hc.2, h⟩

/-- Inversion of a performed write: it came from a successfully read file,
the written content is one of the two candidates, it parses, and it differs
from the original content. -/
lemma processFile_some (astParseOk : String → Bool) (d : FixFileData)
    (w : String × String) (h : processFile astParseOk d = some w) :
    w.1 = d.path ∧ has_syntax_error astParseOk w.2 = false ∧
    ∃ original_code, d.readOutcome = .ok original_code ∧
      w.2 ≠ original_code ∧ (w.2 = d.targeted ∨ w.2 = d.llmFixed) := by
  simp only [processFile] at h
  rcases hro : d.readOutcome with e | original
  · simp only [hro] at h
    exact Option.noConfusion h
  · simp only [hro] at h
    split at h
    · rename_i h1
      split at h
      · rename_i h2
        cases h
        exact ⟨rfl, h1, original, rfl, h2, Or.inl rfl⟩
      · cases h
    · rename_i h1
      split at h
      · rename_i h2
        cases h
        exact ⟨rfl, h2.1, original, rfl, h2.2, Or.inr rfl⟩
      · cases h

/-- C10 (Fixer write guard): `files_modified` equals exactly the number of
files written, and every written file received content that passes
`_has_syntax_error` (hence is non-empty, non-blank and `ast.parse`-valid),
differs from the file's original content, and is one of the two fix
candidates for that file — so an unchanged or syntactically invalid
candidate is never written and never counted. -/
theorem fixer_write_guard (astParseOk : String → Bool)
    (files : List FixFileData) :
    (fix_issues astParseOk files).1 = (fix_issues astParseOk files).2.length ∧
    ∀ w, w ∈ (fix_issues astParseOk files).2 →
      has_syntax_error astParseOk w.2 = false ∧
      w.2 ≠ "" ∧ pyStrip w.2 ≠ "" ∧ astParseOk w.2 = true ∧
      ∃ d, d ∈ files ∧ w.1 = d.path ∧
        ∃ original_code, d.readOutcome = .ok original_code ∧
          w.2 ≠ original_code ∧ (w.2 = d.targeted ∨ w.2 = d.llmFixed) := by
  induction files with
  | nil =>
    refine ⟨rfl, ?_⟩
    intro w hw
    simp [fix_issues] at hw
  | cons d rest ih =>
    constructor
    · simp only [fix_issues]
      rcases hp : processFile astParseOk d with _ | w
      · exact ih.1
      · simp [ih.1]
    · intro w hw
      simp only [fix_issues] at hw
      rcases hp : processFile astParseOk d with _ | w'
      · simp only [hp] at hw
        obtain ⟨hse, hne, hst, hok, dd, hdd, hrest⟩ := ih.2 w hw
        exact ⟨hse, hne, hst, hok, dd, List.mem_cons_of_mem d hdd, hrest⟩
      · simp only [hp] at hw
        rcases List.mem_cons.mp hw with rfl | hw'
        · obtain ⟨hpath, hse, oc, hoc, hneq, hor⟩ :=
            processFile_some astParseOk d w hp
          have hval := has_syntax_error_false astParseOk w.2 hse
          exact ⟨hse, hval.1, hval.2.1, hval.2.2, d, List.mem_cons_self d rest,
            hpath, oc, hoc, hneq, hor⟩
        · obtain ⟨hse, hne, hst, hok, dd, hdd, hrest⟩ := ih.2 w hw'
          exact ⟨hse, hne, hst, hok, dd, List.mem_cons_of_mem d hdd, hrest⟩

/-- An `ast.parse` oracle accepting exactly one candidate string. -/
def parseOracle : String → Bool := fun code => code = "def f():\n    return 1\n"

/-- A file whose targeted fix is valid and differs from the original. -/
def okFixFile : FixFileData :=
  { path := "a.py"
    readOutcome := .ok "def f(:\n"
    targeted := "def f():\n    return 1\n"
    llmFixed := "" }

/-- A file neither of whose candidates is valid: it must not be written. -/
def failFixFile : FixFileData :=
  { path := "b.py"
    readOutcome := .ok "x = 1\n"
    targeted := "x = 1\n"
    llmFixed := "x = 1\n" }

/-- Witness for C10 on a two-file plan: one valid differing candidate is
written and counted, the other file is left untouched. -/
theorem fixer_write_guard_witness :
    (fix_issues parseOracle [okFixFile, failFixFile]).1 =
      (fix_issues parseOracle [okFixFile, failFixFile]).2.length ∧
    has_syntax_error parseOracle
      (("a.py", "def f():\n    return 1\n") : String × String).2 = false ∧
    (("a.py", "def f():\n    return 1\n") : String × String).2 ≠ "" :=
  ⟨(fixer_write_guard parseOracle [okFixFile, failFixFile]).1,
   ((fixer_write_guard parseOracle [okFixFile, failFixFile]).2
      ("a.py", "def f():\n    return 1\n") (by decide)).1,
   ((fixer_write_guard parseOracle [okFixFile, failFixFile]).2
      ("a.py", "def f():\n    return 1\n") (by decide)).2.1⟩

end RefactorSwarm
